import Mathlib

/-!
# Verification of the ODrive per-axis state machine
(`Firmware/MotorControl/axis.cpp`)

Shallow embedding of the axis state machine, task-chain planner, control-loop
variants and the step/direction interface of `axis.cpp`.  Subsystems declared
outside this file (Motor, Encoder, SensorlessEstimator, Controller) communicate
with the axis only through boolean results and calibration flags; we model
every such interaction as an oracle input supplied by the environment
(`TickEnv` for one control-loop iteration, `IterEnv` for one top-level state
machine iteration).  Float quantities (`x`, `vel`, `counts_per_step`, ...)
are modelled over `ℚ`; the phase values produced by `wrap_pm_pi` feed only
`motor_.update`, whose boolean result is already an oracle, so the numeric
phase is not tracked.
-/

/-- Axis states.  Modelled from the spec: the enumeration lives in `axis.hpp`
which is not part of the sources; the spec orders the concrete states by
calibration dependency as
`Undefined, Idle, MotorCalibration, EncoderCalibration, SensorlessControl,
ClosedLoopControl` with the two compound requests (`StartupSequence`,
`FullCalibrationSequence`) never stored as a current state.  `toNat` below
realizes that total order (compound requests sit between `Idle` and
`MotorCalibration`; they are only ever compared by equality). -/
inductive AxisState where
  | undefined
  | idle
  | startupSequence
  | fullCalibrationSequence
  | motorCalibration
  | encoderCalibration
  | sensorlessControl
  | closedLoopControl
deriving DecidableEq, Repr

/-- Numeric value of an `AxisState`, used by the ordinal precondition checks
(`current_state_ > AXIS_STATE_MOTOR_CALIBRATION`, ...) in
`run_state_machine_loop`. -/
def AxisState.toNat : AxisState → Nat
  | .undefined => 0
  | .idle => 1
  | .startupSequence => 2
  | .fullCalibrationSequence => 3
  | .motorCalibration => 4
  | .encoderCalibration => 5
  | .sensorlessControl => 6
  | .closedLoopControl => 7

/-- Error kinds of the axis (`error_` in `axis.cpp`). -/
inductive AxisError where
  | noError
  | currentMeasurementTimeout
  | motorFailed
  | dcBusUnderVoltage
  | posCtrlDuringSensorless
  | sensorlessEstimatorFailed
  | controllerFailed
  | encoderFailed
  | invalidState
deriving DecidableEq, Repr

/-- Controller control modes.  Modelled from the spec: the enumeration lives in
the controller's header, which is not part of the sources; the spec only needs
"position-mode control" to be the highest mode, compared by
`control_mode >= CTRL_MODE_POSITION_CONTROL` in `run_sensorless_control_loop`. -/
inductive ControlMode where
  | voltageControl
  | currentControl
  | velocityControl
  | positionControl
deriving DecidableEq, Repr

/-- Numeric value of a `ControlMode` (the C enum value). -/
def ControlMode.toNat : ControlMode → Nat
  | .voltageControl => 0
  | .currentControl => 1
  | .velocityControl => 2
  | .positionControl => 3

/-- `CTRL_MODE_POSITION_CONTROL` as a numeral. -/
def CTRL_MODE_POSITION_CONTROL : Nat := 3

/-- Subsystem interactions performed during one state-machine iteration;
used to record which collaborator calls a code path makes. -/
inductive Subsys where
  | motorChecks
  | encoder
  | estimator
  | controller
  | motor
  | motorCalibRoutine
  | encoderCalibRoutine
  | arm
deriving DecidableEq, Repr

/-- Operator configuration of the axis (`AxisConfig_t`), restricted to the
fields `axis.cpp` reads. -/
structure AxisConfig where
  startup_motor_calibration : Bool
  startup_encoder_calibration : Bool
  startup_closed_loop_control : Bool
  startup_sensorless_control : Bool
  enable_step_dir : Bool
  counts_per_step : ℚ
  ramp_up_time : ℚ
  ramp_up_distance : ℚ
  spin_up_current : ℚ
  spin_up_acceleration : ℚ
  spin_up_target_vel : ℚ

/-- Oracle inputs for one iteration of a control loop: the boolean results of
every external call the iteration may make, plus a state request that the
external world may write to `requested_state_` before this iteration's
while-condition check (`AxisState.undefined` meaning no new request). -/
structure TickEnv where
  reqArrival : AxisState
  measOk : Bool
  motorChecksOk : Bool
  psuOk : Bool
  encoderOk : Bool
  estimatorOk : Bool
  controllerOk : Bool
  motorOk : Bool
deriving DecidableEq, Repr

/-- A tick on which every external call succeeds and no request arrives. -/
def okTick : TickEnv :=
  { reqArrival := AxisState.undefined, measOk := true, motorChecksOk := true,
    psuOk := true, encoderOk := true, estimatorOk := true,
    controllerOk := true, motorOk := true }

/-- The axis-owned mutable state threaded through the control loops:
`error_`, `enable_step_dir_` and `requested_state_`. -/
structure LoopCtx where
  error : AxisError
  stepDir : Bool
  requested : AxisState
deriving DecidableEq, Repr

/-- `Axis::set_step_dir_enabled`: the GPIO (un)subscription is external; the
observable axis state is the `enable_step_dir_` flag. -/
def set_step_dir_enabled (c : LoopCtx) (enable : Bool) : LoopCtx :=
  { error := c.error, stepDir := enable, requested := c.requested }

/-- `Axis::step_cb`: on a rising step edge, if step/dir is enabled, read the
direction pin and add `dir * counts_per_step` to the controller's position
setpoint (`dir` is `+1` when the pin is high, `-1` when low). -/
def step_cb (enabled : Bool) (dirHigh : Bool) (counts_per_step : ℚ)
    (pos_setpoint : ℚ) : ℚ :=
  if enabled then
    pos_setpoint + (if dirHigh then (1 : ℚ) else (-1 : ℚ)) * counts_per_step
  else pos_setpoint

/-- Body of one iteration of `Axis::run_sensorless_control_loop` (the lambda
passed to `run_control_loop`): reject position control, update the encoder for
monitoring only (its boolean result is intentionally discarded), then
estimator, controller and motor in sequence, any failure setting the matching
error and stopping the loop.  The fourth component records which subsystems
were updated. -/
def sensorlessBody (mode : ControlMode) (t : TickEnv) (_st : Unit)
    (e : AxisError) : Unit × AxisError × Bool × List Subsys :=
  if CTRL_MODE_POSITION_CONTROL ≤ mode.toNat then
    ((), AxisError.posCtrlDuringSensorless, false, [])
  else if t.estimatorOk = false then
    ((), AxisError.sensorlessEstimatorFailed, false,
      [Subsys.encoder, Subsys.estimator])
  else if t.controllerOk = false then
    ((), AxisError.controllerFailed, false,
      [Subsys.encoder, Subsys.estimator, Subsys.controller])
  else if t.motorOk = false then
    ((), AxisError.motorFailed, false,
      [Subsys.encoder, Subsys.estimator, Subsys.controller, Subsys.motor])
  else
    ((), e, true,
      [Subsys.encoder, Subsys.estimator, Subsys.controller, Subsys.motor])

/-- Body of one iteration of `Axis::run_closed_loop_control_loop`: update the
sensorless estimator for monitoring only (result discarded), then encoder,
controller and motor in sequence. -/
def closedLoopBody (t : TickEnv) (_st : Unit) (e : AxisError) :
    Unit × AxisError × Bool × List Subsys :=
  if t.encoderOk = false then
    ((), AxisError.encoderFailed, false, [Subsys.estimator, Subsys.encoder])
  else if t.controllerOk = false then
    ((), AxisError.controllerFailed, false,
      [Subsys.estimator, Subsys.encoder, Subsys.controller])
  else if t.motorOk = false then
    ((), AxisError.motorFailed, false,
      [Subsys.estimator, Subsys.encoder, Subsys.controller, Subsys.motor])
  else
    ((), e, true,
      [Subsys.estimator, Subsys.encoder, Subsys.controller, Subsys.motor])

/-- Body of one iteration of `Axis::run_idle_loop`: monitoring-only updates of
the sensorless estimator and the encoder, both results discarded; always
continues. -/
def idleBody (_t : TickEnv) (_st : Unit) (e : AxisError) :
    Unit × AxisError × Bool × List Subsys :=
  ((), e, true, [Subsys.estimator, Subsys.encoder])

/-- Body of one iteration of the first (open-loop ramp) phase of
`Axis::run_sensorless_spin_up`: the local state is the normalized progress
`x`; each iteration computes phase and current magnitude from the current `x`
(both feed only `motor_.update`, whose boolean result is the oracle
`t.motorOk`), advances `x` by `current_meas_period / ramp_up_time`, fails with
`MotorFailed` if the motor update fails, and continues while `x < 1`. -/
def spinUpRampBody (cfg : AxisConfig) (measPeriod : ℚ) (t : TickEnv) (x : ℚ)
    (e : AxisError) : ℚ × AxisError × Bool × List Subsys :=
  let x2 := x + measPeriod / cfg.ramp_up_time
  if t.motorOk = false then (x2, AxisError.motorFailed, false, [Subsys.motor])
  else (x2, e, decide (x2 < 1), [Subsys.motor])

/-- Body of one iteration of the second (acceleration) phase of
`Axis::run_sensorless_spin_up`: the local state is the velocity; the wrapped
phase feeds only `motor_.update` and is not tracked numerically.  Continues
while `vel < spin_up_target_vel`. -/
def spinUpAccelBody (cfg : AxisConfig) (measPeriod : ℚ) (t : TickEnv)
    (vel : ℚ) (e : AxisError) : ℚ × AxisError × Bool × List Subsys :=
  let vel2 := vel + cfg.spin_up_acceleration * measPeriod
  if t.motorOk = false then
    (vel2, AxisError.motorFailed, false, [Subsys.motor])
  else (vel2, e, decide (vel2 < cfg.spin_up_target_vel), [Subsys.motor])

/-- Modelled from the spec: `Axis::run_control_loop` is declared in
`axis.hpp`, which is not among the sources; only its callers and the helpers
it composes (`wait_for_current_meas`, `do_checks`, both in `axis.cpp`) are.
Per the spec it repeatedly: checks `requested_state_` (stopping as soon as a
request is pending), waits for the current-measurement event with a bounded
timeout (`wait_for_current_meas` sets `CurrentMeasurementTimeout` on timeout;
a timeout stops every variant except Idle, which tolerates missed deadlines
and skips to the next tick), runs `do_checks` (motor checks then PSU brownout,
setting `MotorFailed` / `DcBusUnderVoltage` and stopping on failure), then
invokes the closure once, stopping when the closure returns `false`.  The
result is the final local closure state, the error value, the pending
requested state, and the record of subsystem calls made. -/
def run_control_loop {σ : Type} (isIdle : Bool)
    (body : TickEnv → σ → AxisError → σ × AxisError × Bool × List Subsys) :
    List TickEnv → σ → AxisError → AxisState →
      σ × AxisError × AxisState × List Subsys
  | [], st, e, req => (st, e, req, [])
  | t :: ts, st, e, req =>
    let req2 := if t.reqArrival = AxisState.undefined then req else t.reqArrival
    if req2 ≠ AxisState.undefined then (st, e, req2, [])
    else if t.measOk = false then
      (if isIdle then
        run_control_loop isIdle body ts st AxisError.currentMeasurementTimeout req2
      else (st, AxisError.currentMeasurementTimeout, req2, []))
    else if t.motorChecksOk = false then
      (st, AxisError.motorFailed, req2, [Subsys.motorChecks])
    else if t.psuOk = false then
      (st, AxisError.dcBusUnderVoltage, req2, [Subsys.motorChecks])
    else
      let r := body t st e
      if r.2.2.1 = true then
        let rest := run_control_loop isIdle body ts r.1 r.2.1 req2
        (rest.1, rest.2.1, rest.2.2.1,
          (Subsys.motorChecks :: r.2.2.2) ++ rest.2.2.2)
      else (r.1, r.2.1, req2, Subsys.motorChecks :: r.2.2.2)

/-- `Axis::run_sensorless_spin_up`: open-loop ramp from `x = 0`, then, if no
error was recorded, the acceleration phase starting from
`vel = ramp_up_distance / ramp_up_time`; returns whether `error_` is still
`NoError` afterwards. -/
def run_sensorless_spin_up (cfg : AxisConfig) (measPeriod : ℚ)
    (ticks1 ticks2 : List TickEnv) (c : LoopCtx) :
    LoopCtx × Bool × List Subsys :=
  let r1 := run_control_loop false (spinUpRampBody cfg measPeriod) ticks1 0
    c.error c.requested
  if r1.2.1 ≠ AxisError.noError then
    ({ error := r1.2.1, stepDir := c.stepDir, requested := r1.2.2.1 },
      false, r1.2.2.2)
  else
    let r2 := run_control_loop false (spinUpAccelBody cfg measPeriod) ticks2
      (cfg.ramp_up_distance / cfg.ramp_up_time) r1.2.1 r1.2.2.1
    ({ error := r2.2.1, stepDir := c.stepDir, requested := r2.2.2.1 },
      decide (r2.2.1 = AxisError.noError), r1.2.2.2 ++ r2.2.2.2)

/-- `Axis::run_sensorless_control_loop`: enable step/dir input according to
`config_.enable_step_dir`, run the loop, disable step/dir input, and return
whether `error_` equals `NoError`. -/
def run_sensorless_control_loop (cfg : AxisConfig) (mode : ControlMode)
    (ticks : List TickEnv) (c : LoopCtx) : LoopCtx × Bool × List Subsys :=
  let c1 := set_step_dir_enabled c cfg.enable_step_dir
  let r := run_control_loop false (sensorlessBody mode) ticks () c1.error
    c1.requested
  let c2 := set_step_dir_enabled
    { error := r.2.1, stepDir := c1.stepDir, requested := r.2.2.1 } false
  (c2, decide (c2.error = AxisError.noError), r.2.2.2)

/-- `Axis::run_closed_loop_control_loop`: same step/dir bracket as the
sensorless loop, with the closed-loop body. -/
def run_closed_loop_control_loop (cfg : AxisConfig)
    (ticks : List TickEnv) (c : LoopCtx) : LoopCtx × Bool × List Subsys :=
  let c1 := set_step_dir_enabled c cfg.enable_step_dir
  let r := run_control_loop false closedLoopBody ticks () c1.error c1.requested
  let c2 := set_step_dir_enabled
    { error := r.2.1, stepDir := c1.stepDir, requested := r.2.2.1 } false
  (c2, decide (c2.error = AxisError.noError), r.2.2.2)

/-- `Axis::run_idle_loop`: runs the idle body (the only variant that tolerates
missed measurement deadlines) and returns whether `error_` equals `NoError`
(a result the state machine discards). -/
def run_idle_loop (ticks : List TickEnv) (c : LoopCtx) :
    LoopCtx × Bool × List Subsys :=
  let r := run_control_loop true idleBody ticks () c.error c.requested
  ({ error := r.2.1, stepDir := c.stepDir, requested := r.2.2.1 },
    decide (r.2.1 = AxisError.noError), r.2.2.2)

/-- Modelled from the spec: the task chain is a fixed-capacity array declared
in `axis.hpp`, which is not among the sources; the spec fixes a capacity
without naming it.  We use 10 slots; every expansion writes at most 5 slots,
so any capacity of at least 5 behaves identically. -/
def chainCapacity : Nat := 10

/-- The entries `run_state_machine_loop` writes into `task_chain_` (in write
order, sentinel included) when the pending request `req` is loaded: the
`StartupSequence` and `FullCalibrationSequence` expansions, any other concrete
request followed by `Idle`, always terminated by the `Undefined` sentinel
(lines 212-232 of `axis.cpp`; the final redundant guard against a pending
`Undefined` is kept as in the source). -/
def expandRequest (req : AxisState) (cfg : AxisConfig) : List AxisState :=
  (if req = AxisState.startupSequence then
    (if cfg.startup_motor_calibration then [AxisState.motorCalibration] else []) ++
    (if cfg.startup_encoder_calibration then [AxisState.encoderCalibration] else []) ++
    (if cfg.startup_closed_loop_control then [AxisState.closedLoopControl]
     else if cfg.startup_sensorless_control then [AxisState.sensorlessControl]
     else []) ++
    [AxisState.idle]
  else if req = AxisState.fullCalibrationSequence then
    [AxisState.motorCalibration, AxisState.encoderCalibration, AxisState.idle]
  else if req ≠ AxisState.undefined then
    [req, AxisState.idle]
  else []) ++ [AxisState.undefined]

/-- Writing the expansion into the fixed array: slots `0 .. xs.length - 1`
are overwritten, the remaining (stale) slots keep their previous contents. -/
def writePrefix (chain xs : List AxisState) : List AxisState :=
  xs ++ chain.drop xs.length

/-- The `memcpy(task_chain_, task_chain_ + 1, ...)` advance on success: every
slot takes the value of its successor; the last slot keeps its old value. -/
def chainShift (chain : List AxisState) : List AxisState :=
  chain.drop 1 ++ [chain.getD (chainCapacity - 1) AxisState.undefined]

/-- Outcome handling of one state-machine iteration (lines 278-282): on
failure only `task_chain_[0]` (aliased by `current_state_`) is overwritten
with `Idle`; on success the chain is shifted left by one slot. -/
def applyOutcome (chain : List AxisState) (status : Bool) : List AxisState :=
  if status = true then chainShift chain else chain.set 0 AxisState.idle

/-- Precondition validation on the head state (lines 239-243): a state
ordinally above `MotorCalibration` with the motor uncalibrated, or above
`EncoderCalibration` with the encoder uncalibrated, is replaced by
`Undefined` (the two checks run in sequence on `current_state_`). -/
def validateHead (motorCalibrated encoderCalibrated : Bool) (h : AxisState) :
    AxisState :=
  let h1 := if AxisState.motorCalibration.toNat < h.toNat ∧
      motorCalibrated = false then AxisState.undefined else h
  if AxisState.encoderCalibration.toNat < h1.toNat ∧
      encoderCalibrated = false then AxisState.undefined else h1

/-- The axis state owned by `run_state_machine_loop`: the task chain (whose
slot 0 is `current_state_`), the pending `requested_state_`, `error_` and the
step/dir enable flag. -/
structure AxisMachine where
  chain : List AxisState
  requested : AxisState
  error : AxisError
  stepDir : Bool
deriving DecidableEq, Repr

/-- Oracle inputs for one top-level iteration of the state machine: a request
the external world may have written before the iteration starts, the
calibration flags the validation reads, the results of the calibration
routines and of `motor_.arm()`, and the tick environments consumed by the
spin-up phases (`ticks1`, `ticks2`) and by the control/idle loop (`ticks3`)
in case the dispatched state runs them. -/
structure IterEnv where
  reqAtTop : AxisState
  motorCalibrated : Bool
  encoderCalibrated : Bool
  motorCalibOk : Bool
  encoderCalibOk : Bool
  armOk : Bool
  ticks1 : List TickEnv
  ticks2 : List TickEnv
  ticks3 : List TickEnv
deriving DecidableEq, Repr

/-- The dispatch switch of `run_state_machine_loop` (lines 245-276) on the
validated head state `h`: calibration routines are external calls (their
boolean results are the oracle); `SensorlessControl` runs spin-up and, on
success, the sensorless loop; `Idle` runs the idle loop (result discarded)
and takes `motor_.arm()` as its status; any other value (including
`Undefined`) sets `InvalidState` and fails. -/
def dispatch (cfg : AxisConfig) (mode : ControlMode) (measPeriod : ℚ)
    (env : IterEnv) (h : AxisState) (ctx : LoopCtx) :
    LoopCtx × Bool × List Subsys :=
  match h with
  | AxisState.motorCalibration => (ctx, env.motorCalibOk, [Subsys.motorCalibRoutine])
  | AxisState.encoderCalibration => (ctx, env.encoderCalibOk, [Subsys.encoderCalibRoutine])
  | AxisState.sensorlessControl =>
    let r1 := run_sensorless_spin_up cfg measPeriod env.ticks1 env.ticks2 ctx
    if r1.2.1 = true then
      let r2 := run_sensorless_control_loop cfg mode env.ticks3 r1.1
      (r2.1, r2.2.1, r1.2.2 ++ r2.2.2)
    else (r1.1, false, r1.2.2)
  | AxisState.closedLoopControl =>
    let r := run_closed_loop_control_loop cfg env.ticks3 ctx
    (r.1, r.2.1, r.2.2)
  | AxisState.idle =>
    let r := run_idle_loop env.ticks3 ctx
    (r.1, env.armOk, r.2.2 ++ [Subsys.arm])
  | _ => ({ error := AxisError.invalidState, stepDir := ctx.stepDir,
            requested := ctx.requested }, false, [])

/-- One iteration of the infinite `for (;;)` loop of
`Axis::run_state_machine_loop`: load the task chain if a request is pending
(clearing the request), validate the head, dispatch it, then apply the
outcome.  Returns the new machine state, the dispatched (validated) head
state, the dispatch status, and the subsystem calls made. -/
def smIter (cfg : AxisConfig) (mode : ControlMode) (measPeriod : ℚ)
    (env : IterEnv) (m : AxisMachine) :
    AxisMachine × AxisState × Bool × List Subsys :=
  let req0 := if env.reqAtTop = AxisState.undefined then m.requested
    else env.reqAtTop
  let chain1 := if req0 ≠ AxisState.undefined then
    writePrefix m.chain (expandRequest req0 cfg) else m.chain
  let req1 := if req0 ≠ AxisState.undefined then AxisState.undefined else req0
  let h2 := validateHead env.motorCalibrated env.encoderCalibrated
    (chain1.getD 0 AxisState.undefined)
  let chain2 := chain1.set 0 h2
  let r := dispatch cfg mode measPeriod env h2
    { error := m.error, stepDir := m.stepDir, requested := req1 }
  ({ chain := applyOutcome chain2 r.2.1, requested := r.1.requested,
     error := r.1.error, stepDir := r.1.stepDir },
   h2, r.2.1, r.2.2)

/-- Several iterations of the state machine loop; returns the final machine
state and the log of (dispatched state, status) pairs, one per iteration. -/
def smRun (cfg : AxisConfig) (mode : ControlMode) (measPeriod : ℚ) :
    List IterEnv → AxisMachine → AxisMachine × List (AxisState × Bool)
  | [], m => (m, [])
  | env :: rest, m =>
    let r := smIter cfg mode measPeriod env m
    let rr := smRun cfg mode measPeriod rest r.1
    (rr.1, (r.2.1, r.2.2.1) :: rr.2)

/-- Modelled from the spec: initial axis state (field initializers in
`axis.hpp`, not among the sources) - empty chain of `Undefined` sentinels, no
pending request, no error, step/dir disabled. -/
def initMachine : AxisMachine :=
  { chain := List.replicate chainCapacity AxisState.undefined,
    requested := AxisState.undefined, error := AxisError.noError,
    stepDir := false }

/-- The normalized spin-up progress `x` after the open-loop ramp of
`run_sensorless_spin_up` has observed `k` ticks on which every external call
succeeds (starting, as in the source, from `x = 0` with no error and no
pending request). -/
def rampX (cfg : AxisConfig) (measPeriod : ℚ) (k : Nat) : ℚ :=
  (run_control_loop false (spinUpRampBody cfg measPeriod)
    (List.replicate k okTick) 0 AxisError.noError AxisState.undefined).1

/-- The step/dir enable flag during the body of
`run_sensorless_control_loop` / `run_closed_loop_control_loop`: both loops
begin with `set_step_dir_enabled(config_.enable_step_dir)` and the loop body
never writes the flag. -/
def stepDirAtLoopEntry (cfg : AxisConfig) (c : LoopCtx) : Bool :=
  (set_step_dir_enabled c cfg.enable_step_dir).stepDir

section Lemmas

/-- Every expansion writes at most 5 slots. -/
lemma expandRequest_length_le (req : AxisState) (cfg : AxisConfig) :
    (expandRequest req cfg).length ≤ 5 := by
  rcases cfg with ⟨mc, ec, clc, slc, _, _, _, _, _, _, _⟩
  cases req <;> cases mc <;> cases ec <;> cases clc <;> cases slc <;>
    simp [expandRequest]

/-- Overwriting a prefix that fits keeps the array length. -/
lemma writePrefix_length (chain xs : List AxisState)
    (h : xs.length ≤ chain.length) :
    (writePrefix chain xs).length = chain.length := by
  simp [writePrefix]
  omega

end Lemmas

/-- C2: for every pending request and every configuration, expanding the
request into the task chain writes at most `chainCapacity` slots (sentinel
included), the written slots end with the `Undefined` sentinel, and loading
the expansion into a chain of the fixed capacity leaves the length at exactly
that capacity (no out-of-bounds write); in particular no request's expansion
can exceed the capacity, so the over-long-request error condition never
arises. -/
theorem C2_expansion_within_capacity (req : AxisState) (cfg : AxisConfig) :
    (expandRequest req cfg).length ≤ chainCapacity ∧
    (expandRequest req cfg).getLast? = some AxisState.undefined ∧
    ∀ chain : List AxisState, chain.length = chainCapacity →
      (writePrefix chain (expandRequest req cfg)).length = chainCapacity := by
  refine ⟨?_, ?_, ?_⟩
  · have h := expandRequest_length_le req cfg
    simp [chainCapacity]
    omega
  · simp [expandRequest]
  · intro chain hlen
    rw [writePrefix_length]
    · exact hlen
    · have h := expandRequest_length_le req cfg
      rw [hlen]
      simp [chainCapacity]
      omega

/-- C2 witness: a `StartupSequence` request with every startup flag set (the
longest possible expansion) loaded into the initial chain. -/
theorem C2_expansion_within_capacity_witness :
    (List.replicate chainCapacity AxisState.undefined).length = chainCapacity ∧
    (writePrefix (List.replicate chainCapacity AxisState.undefined)
      (expandRequest AxisState.startupSequence
        { startup_motor_calibration := true, startup_encoder_calibration := true,
          startup_closed_loop_control := true, startup_sensorless_control := true,
          enable_step_dir := false, counts_per_step := 0, ramp_up_time := 1,
          ramp_up_distance := 0, spin_up_current := 0, spin_up_acceleration := 0,
          spin_up_target_vel := 0 })).length = chainCapacity :=
  ⟨by decide, (C2_expansion_within_capacity AxisState.startupSequence
      { startup_motor_calibration := true, startup_encoder_calibration := true,
        startup_closed_loop_control := true, startup_sensorless_control := true,
        enable_step_dir := false, counts_per_step := 0, ramp_up_time := 1,
        ramp_up_distance := 0, spin_up_current := 0, spin_up_acceleration := 0,
        spin_up_target_vel := 0 }).2.2
    (List.replicate chainCapacity AxisState.undefined) (by decide)⟩

/-- C3: the `StartupSequence` expansion is, in order, `MotorCalibration` iff
the motor startup flag is set, then `EncoderCalibration` iff the encoder
startup flag is set, then `ClosedLoopControl` if requested, else
`SensorlessControl` if requested (never both), then always `Idle`, terminated
by the `Undefined` sentinel. -/
theorem C3_startup_sequence_expansion (cfg : AxisConfig) :
    expandRequest AxisState.startupSequence cfg =
      (if cfg.startup_motor_calibration then [AxisState.motorCalibration] else []) ++
      (if cfg.startup_encoder_calibration then [AxisState.encoderCalibration] else []) ++
      (if cfg.startup_closed_loop_control then [AxisState.closedLoopControl]
       else if cfg.startup_sensorless_control then [AxisState.sensorlessControl]
       else []) ++
      [AxisState.idle, AxisState.undefined] ∧
    ¬ (AxisState.closedLoopControl ∈ expandRequest AxisState.startupSequence cfg ∧
       AxisState.sensorlessControl ∈ expandRequest AxisState.startupSequence cfg) ∧
    (expandRequest AxisState.startupSequence cfg).getLast? =
      some AxisState.undefined ∧
    (expandRequest AxisState.startupSequence cfg).getD
      ((expandRequest AxisState.startupSequence cfg).length - 2)
      AxisState.undefined = AxisState.idle := by
  rcases cfg with ⟨mc, ec, clc, slc, _, _, _, _, _, _, _⟩
  cases mc <;> cases ec <;> cases clc <;> cases slc <;>
    simp [expandRequest]

/-- C6: in the sensorless control loop, a controller configured for
position-mode control (the comparison `control_mode >=
CTRL_MODE_POSITION_CONTROL` holds exactly for the position mode) makes the
iteration stop immediately with `PositionControlDuringSensorless`, with no
estimator, controller or motor update in that iteration; at the loop level
the very first iteration stops the loop regardless of any later ticks. -/
theorem C6_position_control_rejected_in_sensorless :
    (∀ (t : TickEnv) (e : AxisError),
      sensorlessBody ControlMode.positionControl t () e =
        ((), AxisError.posCtrlDuringSensorless, false, [])) ∧
    (∀ mode : ControlMode,
      CTRL_MODE_POSITION_CONTROL ≤ mode.toNat ↔
        mode = ControlMode.positionControl) ∧
    (∀ (ts : List TickEnv) (e : AxisError),
      run_control_loop false (sensorlessBody ControlMode.positionControl)
        (okTick :: ts) () e AxisState.undefined =
        ((), AxisError.posCtrlDuringSensorless, AxisState.undefined,
          [Subsys.motorChecks])) := by
  refine ⟨?_, ?_, ?_⟩
  · intro t e
    simp [sensorlessBody, CTRL_MODE_POSITION_CONTROL, ControlMode.toNat]
  · intro mode
    cases mode <;> simp [CTRL_MODE_POSITION_CONTROL, ControlMode.toNat]
  · intro ts e
    simp [run_control_loop, okTick, sensorlessBody,
      CTRL_MODE_POSITION_CONTROL, ControlMode.toNat]

/-- Configuration with step/dir input disabled by the operator (all other
fields immaterial). -/
def cfgNoStepDir : AxisConfig :=
  { startup_motor_calibration := false, startup_encoder_calibration := false,
    startup_closed_loop_control := false, startup_sensorless_control := false,
    enable_step_dir := false, counts_per_step := 2, ramp_up_time := 1,
    ramp_up_distance := 0, spin_up_current := 0, spin_up_acceleration := 0,
    spin_up_target_vel := 0 }

/-- A clean loop context: no error, step/dir disabled, no pending request. -/
def ctxClean : LoopCtx :=
  { error := AxisError.noError, stepDir := false,
    requested := AxisState.undefined }

/-- C8 counterexample: with `enable_step_dir = false` in the configuration,
entering the sensorless or closed-loop control loop does NOT enable the
step/direction input - both loops begin with
`set_step_dir_enabled(config_.enable_step_dir)`, not with an unconditional
enable, so the claim "step/direction input is enabled at loop entry" fails. -/
theorem C8_counterexample_entry_not_enabled :
    ¬ (stepDirAtLoopEntry cfgNoStepDir ctxClean = true) := by decide

/-- C8 amended: at loop entry the step/dir flag is set to
`config_.enable_step_dir` (so it is enabled exactly when the operator enabled
it), and on loop exit it is disabled regardless of whether the loop ended in
success or failure, for both the sensorless and the closed-loop control
loop. -/
theorem C8_step_dir_bracket (cfg : AxisConfig) (c : LoopCtx) :
    stepDirAtLoopEntry cfg c = cfg.enable_step_dir ∧
    (∀ (mode : ControlMode) (ticks : List TickEnv),
      (run_sensorless_control_loop cfg mode ticks c).1.stepDir = false) ∧
    (∀ ticks : List TickEnv,
      (run_closed_loop_control_loop cfg ticks c).1.stepDir = false) := by
  refine ⟨rfl, ?_, ?_⟩
  · intro mode ticks
    simp [run_sensorless_control_loop, set_step_dir_enabled]
  · intro ticks
    simp [run_closed_loop_control_loop, set_step_dir_enabled]

/-- C9: while step/dir is enabled, a rising step edge adds `counts_per_step`
to the position setpoint when the direction pin is high and subtracts it when
the pin is low; ten edges with direction high and `counts_per_step = 2`
increase the setpoint by exactly 20. -/
theorem C9_step_edges_move_setpoint :
    (∀ cps pos : ℚ, step_cb true true cps pos = pos + cps) ∧
    (∀ cps pos : ℚ, step_cb true false cps pos = pos - cps) ∧
    (∀ pos : ℚ,
      (List.replicate 10 true).foldl (fun q d => step_cb true d 2 q) pos =
        pos + 20) := by
  refine ⟨?_, ?_, ?_⟩
  · intro cps pos
    simp [step_cb]
  · intro cps pos
    simp [step_cb]
    ring
  · intro pos
    simp [step_cb, List.replicate]
    ring

/-- C10: the boolean results of the monitoring-only updates are discarded:
the sensorless loop body is unchanged by the encoder result, the closed-loop
body is unchanged by the estimator result, and the idle body is unchanged by
both, never sets an error and never stops the loop. -/
theorem C10_monitoring_results_discarded :
    (∀ (mode : ControlMode) (t : TickEnv) (b : Bool) (e : AxisError),
      sensorlessBody mode { t with encoderOk := b } () e =
        sensorlessBody mode t () e) ∧
    (∀ (t : TickEnv) (b : Bool) (e : AxisError),
      closedLoopBody { t with estimatorOk := b } () e = closedLoopBody t () e) ∧
    (∀ (t : TickEnv) (b b2 : Bool) (e : AxisError),
      idleBody { t with encoderOk := b, estimatorOk := b2 } () e =
        idleBody t () e) ∧
    (∀ (t : TickEnv) (e : AxisError),
      idleBody t () e = ((), e, true, [Subsys.estimator, Subsys.encoder])) := by
  refine ⟨?_, ?_, ?_, ?_⟩
  · intro mode t b e
    rcases t with ⟨_, _, _, _, _, _, _, _⟩
    simp [sensorlessBody]
  · intro t b e
    rcases t with ⟨_, _, _, _, _, _, _, _⟩
    simp [closedLoopBody]
  · intro t b b2 e
    rcases t with ⟨_, _, _, _, _, _, _, _⟩
    simp [idleBody]
  · intro t e
    simp [idleBody]

section SpinUpRamp

/-- One all-ok tick of the open-loop ramp: advance `x` by the step and either
recurse (while `x < 1`) or stop. -/
lemma rampRun_cons (cfg : AxisConfig) (mp : ℚ) (ts : List TickEnv) (x : ℚ) :
    (run_control_loop false (spinUpRampBody cfg mp) (okTick :: ts) x
      AxisError.noError AxisState.undefined).1 =
    if x + mp / cfg.ramp_up_time < 1 then
      (run_control_loop false (spinUpRampBody cfg mp) ts
        (x + mp / cfg.ramp_up_time) AxisError.noError AxisState.undefined).1
    else x + mp / cfg.ramp_up_time := by
  simp only [run_control_loop, okTick, spinUpRampBody]
  norm_num
  split_ifs <;> simp

/-- The ramp progress is non-decreasing tick by tick. -/
lemma rampRun_mono (cfg : AxisConfig) (mp : ℚ)
    (hstep : 0 ≤ mp / cfg.ramp_up_time) :
    ∀ (k : Nat) (x : ℚ),
      (run_control_loop false (spinUpRampBody cfg mp) (List.replicate k okTick)
        x AxisError.noError AxisState.undefined).1 ≤
      (run_control_loop false (spinUpRampBody cfg mp)
        (List.replicate (k+1) okTick) x AxisError.noError
        AxisState.undefined).1 := by
  intro k
  induction k with
  | zero =>
    intro x
    rw [List.replicate_succ, rampRun_cons]
    simp only [List.replicate_zero, run_control_loop]
    split_ifs <;> linarith
  | succ k ih =>
    intro x
    rw [List.replicate_succ, rampRun_cons]
    rw [show k + 1 + 1 = (k + 1) + 1 from rfl, List.replicate_succ, rampRun_cons]
    split_ifs with h
    · exact ih (x + mp / cfg.ramp_up_time)
    · exact le_refl _

/-- If enough ticks have elapsed for `x` to reach 1, the ramp has stopped. -/
lemma rampRun_reaches_one (cfg : AxisConfig) (mp : ℚ) :
    ∀ (k : Nat) (x : ℚ), 1 ≤ x + k * (mp / cfg.ramp_up_time) →
      1 ≤ (run_control_loop false (spinUpRampBody cfg mp)
        (List.replicate k okTick) x AxisError.noError
        AxisState.undefined).1 := by
  intro k
  induction k with
  | zero =>
    intro x hx
    simpa [run_control_loop] using hx
  | succ k ih =>
    intro x hx
    rw [List.replicate_succ, rampRun_cons]
    split_ifs with h
    · apply ih
      push_cast at hx ⊢
      ring_nf at hx ⊢
      linarith
    · linarith [not_lt.mp h]

/-- While the ramp is still running, each tick advances `x` by exactly
`measurement_period / ramp_up_time`. -/
lemma rampRun_advances (cfg : AxisConfig) (mp : ℚ) :
    ∀ (k : Nat) (x : ℚ),
      (run_control_loop false (spinUpRampBody cfg mp) (List.replicate k okTick)
        x AxisError.noError AxisState.undefined).1 < 1 →
      (run_control_loop false (spinUpRampBody cfg mp)
        (List.replicate (k+1) okTick) x AxisError.noError
        AxisState.undefined).1 =
      (run_control_loop false (spinUpRampBody cfg mp) (List.replicate k okTick)
        x AxisError.noError AxisState.undefined).1 + mp / cfg.ramp_up_time := by
  intro k
  induction k with
  | zero =>
    intro x _
    rw [List.replicate_succ, rampRun_cons]
    simp only [List.replicate_zero, run_control_loop]
    split_ifs <;> rfl
  | succ k ih =>
    intro x hx
    rw [List.replicate_succ, rampRun_cons] at hx
    conv_lhs => rw [List.replicate_succ, rampRun_cons]
    conv_rhs => rw [List.replicate_succ, rampRun_cons]
    by_cases h : x + mp / cfg.ramp_up_time < 1
    · rw [if_pos h] at hx ⊢
      rw [if_pos h]
      exact ih (x + mp / cfg.ramp_up_time) hx
    · rw [if_neg h] at hx
      exact absurd hx h

end SpinUpRamp

/-- C7: with a positive `ramp_up_time` (and positive measurement period), the
open-loop spin-up progress `x` starts at 0, is non-decreasing, advances by
`measurement_period / ramp_up_time` on every tick on which the ramp is still
running, and has reached 1 (so the ramp loop has terminated) after at most
`ceil(ramp_up_time / measurement_period)` ticks. -/
theorem C7_spin_up_ramp_monotone_and_terminates (cfg : AxisConfig) (mp : ℚ)
    (hT : 0 < cfg.ramp_up_time) (hp : 0 < mp) :
    rampX cfg mp 0 = 0 ∧
    (∀ k : Nat, rampX cfg mp k ≤ rampX cfg mp (k+1)) ∧
    (∀ k : Nat, rampX cfg mp k < 1 →
      rampX cfg mp (k+1) = rampX cfg mp k + mp / cfg.ramp_up_time) ∧
    ¬ rampX cfg mp (Nat.ceil (cfg.ramp_up_time / mp)) < 1 := by
  have hstep : 0 < mp / cfg.ramp_up_time := div_pos hp hT
  refine ⟨rfl, ?_, ?_, ?_⟩
  · intro k
    exact rampRun_mono cfg mp (le_of_lt hstep) k 0
  · intro k hk
    exact rampRun_advances cfg mp k 0 hk
  · rw [not_lt]
    apply rampRun_reaches_one
    have hceil : (cfg.ramp_up_time / mp : ℚ) ≤
        ((Nat.ceil (cfg.ramp_up_time / mp) : Nat) : ℚ) := Nat.le_ceil _
    have h1 : (1 : ℚ) = (cfg.ramp_up_time / mp) * (mp / cfg.ramp_up_time) := by
      field_simp
    have h2 : (cfg.ramp_up_time / mp) * (mp / cfg.ramp_up_time) ≤
        ((Nat.ceil (cfg.ramp_up_time / mp) : Nat) : ℚ) * (mp / cfg.ramp_up_time) :=
      mul_le_mul_of_nonneg_right hceil (le_of_lt hstep)
    linarith

/-- C7 witness: `ramp_up_time = 1`, measurement period 1: the ramp reaches 1
within `ceil(1/1) = 1` tick. -/
theorem C7_spin_up_ramp_witness :
    rampX cfgNoStepDir 1 0 = 0 ∧
    ¬ rampX cfgNoStepDir 1 (Nat.ceil (cfgNoStepDir.ramp_up_time / 1)) < 1 :=
  ⟨(C7_spin_up_ramp_monotone_and_terminates cfgNoStepDir 1 (by norm_num [cfgNoStepDir])
      (by norm_num)).1,
   (C7_spin_up_ramp_monotone_and_terminates cfgNoStepDir 1 (by norm_num [cfgNoStepDir])
      (by norm_num)).2.2.2⟩

section ErrorPersistence

/-- No loop body ever writes `NoError` over an existing error. -/
lemma sensorlessBody_error_persists (mode : ControlMode) (t : TickEnv)
    (st : Unit) (e : AxisError) (he : e ≠ AxisError.noError) :
    (sensorlessBody mode t st e).2.1 ≠ AxisError.noError := by
  simp only [sensorlessBody]
  split_ifs <;> simp [he]

lemma closedLoopBody_error_persists (t : TickEnv) (st : Unit) (e : AxisError)
    (he : e ≠ AxisError.noError) :
    (closedLoopBody t st e).2.1 ≠ AxisError.noError := by
  simp only [closedLoopBody]
  split_ifs <;> simp [he]

lemma idleBody_error_persists (t : TickEnv) (st : Unit) (e : AxisError)
    (he : e ≠ AxisError.noError) :
    (idleBody t st e).2.1 ≠ AxisError.noError := he

lemma spinUpRampBody_error_persists (cfg : AxisConfig) (mp : ℚ) (t : TickEnv)
    (x : ℚ) (e : AxisError) (he : e ≠ AxisError.noError) :
    (spinUpRampBody cfg mp t x e).2.1 ≠ AxisError.noError := by
  simp only [spinUpRampBody]
  split_ifs <;> simp [he]

lemma spinUpAccelBody_error_persists (cfg : AxisConfig) (mp : ℚ) (t : TickEnv)
    (v : ℚ) (e : AxisError) (he : e ≠ AxisError.noError) :
    (spinUpAccelBody cfg mp t v e).2.1 ≠ AxisError.noError := by
  simp only [spinUpAccelBody]
  split_ifs <;> simp [he]

/-- The control-loop runner never writes `NoError` over an existing error,
provided its body never does. -/
lemma run_control_loop_error_persists {σ : Type} (isIdle : Bool)
    (body : TickEnv → σ → AxisError → σ × AxisError × Bool × List Subsys)
    (hb : ∀ t st e, e ≠ AxisError.noError →
      (body t st e).2.1 ≠ AxisError.noError) :
    ∀ (ticks : List TickEnv) (st : σ) (e : AxisError) (req : AxisState),
      e ≠ AxisError.noError →
      (run_control_loop isIdle body ticks st e req).2.1 ≠
        AxisError.noError := by
  intro ticks
  induction ticks with
  | nil =>
    intro st e req he
    simpa [run_control_loop] using he
  | cons t ts ih =>
    intro st e req he
    simp only [run_control_loop]
    split_ifs <;>
      first
        | exact he
        | exact ih st AxisError.currentMeasurementTimeout _ (by simp)
        | exact ih _ _ _ (hb t st e he)
        | exact hb t st e he
        | simp

/-- With an error already latched, `run_sensorless_spin_up` keeps the error
and returns `false` - even when every subsystem call in the run succeeds. -/
lemma run_sensorless_spin_up_fails_on_error (cfg : AxisConfig) (mp : ℚ)
    (ticks1 ticks2 : List TickEnv) (c : LoopCtx)
    (he : c.error ≠ AxisError.noError) :
    (run_sensorless_spin_up cfg mp ticks1 ticks2 c).2.1 = false ∧
    (run_sensorless_spin_up cfg mp ticks1 ticks2 c).1.error ≠
      AxisError.noError := by
  have h1 := run_control_loop_error_persists false (spinUpRampBody cfg mp)
    (spinUpRampBody_error_persists cfg mp) ticks1 0 c.error c.requested he
  simp only [run_sensorless_spin_up]
  rw [if_pos h1]
  exact ⟨rfl, h1⟩

/-- With an error already latched, the sensorless control loop keeps the
error and returns `false` - even when every subsystem call succeeds. -/
lemma run_sensorless_control_loop_fails_on_error (cfg : AxisConfig)
    (mode : ControlMode) (ticks : List TickEnv) (c : LoopCtx)
    (he : c.error ≠ AxisError.noError) :
    (run_sensorless_control_loop cfg mode ticks c).2.1 = false ∧
    (run_sensorless_control_loop cfg mode ticks c).1.error ≠
      AxisError.noError := by
  have h1 := run_control_loop_error_persists false (sensorlessBody mode)
    (sensorlessBody_error_persists mode) ticks () c.error c.requested he
  simp only [run_sensorless_control_loop, set_step_dir_enabled]
  exact ⟨by simp [h1], h1⟩

/-- With an error already latched, the closed-loop control loop keeps the
error and returns `false` - even when every subsystem call succeeds. -/
lemma run_closed_loop_control_loop_fails_on_error (cfg : AxisConfig)
    (ticks : List TickEnv) (c : LoopCtx)
    (he : c.error ≠ AxisError.noError) :
    (run_closed_loop_control_loop cfg ticks c).2.1 = false ∧
    (run_closed_loop_control_loop cfg ticks c).1.error ≠
      AxisError.noError := by
  have h1 := run_control_loop_error_persists false closedLoopBody
    closedLoopBody_error_persists ticks () c.error c.requested he
  simp only [run_closed_loop_control_loop, set_step_dir_enabled]
  exact ⟨by simp [h1], h1⟩

/-- With an error already latched, the idle loop keeps the error. -/
lemma run_idle_loop_error_persists (ticks : List TickEnv) (c : LoopCtx)
    (he : c.error ≠ AxisError.noError) :
    (run_idle_loop ticks c).1.error ≠ AxisError.noError := by
  have h1 := run_control_loop_error_persists true idleBody
    idleBody_error_persists ticks () c.error c.requested he
  simpa [run_idle_loop] using h1

/-- The dispatch of any head state never writes `NoError` over an existing
error. -/
lemma dispatch_error_persists (cfg : AxisConfig) (mode : ControlMode)
    (mp : ℚ) (env : IterEnv) (h : AxisState) (ctx : LoopCtx)
    (he : ctx.error ≠ AxisError.noError) :
    (dispatch cfg mode mp env h ctx).1.error ≠ AxisError.noError := by
  cases h with
  | motorCalibration => exact he
  | encoderCalibration => exact he
  | sensorlessControl =>
    simp only [dispatch]
    have hs := run_sensorless_spin_up_fails_on_error cfg mp env.ticks1
      env.ticks2 ctx he
    rw [hs.1]
    simp only [Bool.false_eq_true, if_false]
    exact hs.2
  | closedLoopControl =>
    simp only [dispatch]
    exact (run_closed_loop_control_loop_fails_on_error cfg env.ticks3 ctx he).2
  | idle =>
    simp only [dispatch]
    exact run_idle_loop_error_persists env.ticks3 ctx he
  | undefined => simp [dispatch]
  | startupSequence => simp [dispatch]
  | fullCalibrationSequence => simp [dispatch]

/-- One state-machine iteration never resets the error value. -/
lemma smIter_error_persists (cfg : AxisConfig) (mode : ControlMode) (mp : ℚ)
    (env : IterEnv) (m : AxisMachine) (he : m.error ≠ AxisError.noError) :
    (smIter cfg mode mp env m).1.error ≠ AxisError.noError := by
  simp only [smIter]
  exact dispatch_error_persists cfg mode mp env _ _ he

/-- Any number of state-machine iterations never resets the error value. -/
lemma smRun_error_persists (cfg : AxisConfig) (mode : ControlMode) (mp : ℚ) :
    ∀ (envs : List IterEnv) (m : AxisMachine),
      m.error ≠ AxisError.noError →
      (smRun cfg mode mp envs m).1.error ≠ AxisError.noError := by
  intro envs
  induction envs with
  | nil => intro m he; exact he
  | cons env rest ih =>
    intro m he
    exact ih _ (smIter_error_persists cfg mode mp env m he)

end ErrorPersistence

/-- C5: no operation of the axis core resets the error to `NoError` - one
iteration and any sequence of iterations of the state machine preserve a
latched error - and consequently once an error is latched, every later run of
the sensorless spin-up, the sensorless control loop or the closed-loop
control loop reports failure, for every tick environment, including runs in
which every subsystem call succeeds. -/
theorem C5_error_latched_forever :
    (∀ (cfg : AxisConfig) (mode : ControlMode) (mp : ℚ) (env : IterEnv)
      (m : AxisMachine), m.error ≠ AxisError.noError →
      (smIter cfg mode mp env m).1.error ≠ AxisError.noError) ∧
    (∀ (cfg : AxisConfig) (mode : ControlMode) (mp : ℚ) (envs : List IterEnv)
      (m : AxisMachine), m.error ≠ AxisError.noError →
      (smRun cfg mode mp envs m).1.error ≠ AxisError.noError) ∧
    (∀ (cfg : AxisConfig) (mp : ℚ) (ticks1 ticks2 : List TickEnv)
      (c : LoopCtx), c.error ≠ AxisError.noError →
      (run_sensorless_spin_up cfg mp ticks1 ticks2 c).2.1 = false) ∧
    (∀ (cfg : AxisConfig) (mode : ControlMode) (ticks : List TickEnv)
      (c : LoopCtx), c.error ≠ AxisError.noError →
      (run_sensorless_control_loop cfg mode ticks c).2.1 = false) ∧
    (∀ (cfg : AxisConfig) (ticks : List TickEnv) (c : LoopCtx),
      c.error ≠ AxisError.noError →
      (run_closed_loop_control_loop cfg ticks c).2.1 = false) :=
  ⟨smIter_error_persists, smRun_error_persists,
   fun cfg mp t1 t2 c he =>
     (run_sensorless_spin_up_fails_on_error cfg mp t1 t2 c he).1,
   fun cfg mode ticks c he =>
     (run_sensorless_control_loop_fails_on_error cfg mode ticks c he).1,
   fun cfg ticks c he =>
     (run_closed_loop_control_loop_fails_on_error cfg ticks c he).1⟩

/-- A context with a latched motor error. -/
def ctxMotorFailed : LoopCtx :=
  { error := AxisError.motorFailed, stepDir := false,
    requested := AxisState.undefined }

/-- C5 witness: with `MotorFailed` latched, one all-ok state-machine
iteration keeps the error latched, and the sensorless and closed control
loops run on an all-ok tick still report failure. -/
theorem C5_error_latched_forever_witness :
    (smIter cfgNoStepDir ControlMode.velocityControl 1
      { reqAtTop := AxisState.undefined, motorCalibrated := true,
        encoderCalibrated := true, motorCalibOk := true, encoderCalibOk := true,
        armOk := true, ticks1 := [], ticks2 := [], ticks3 := [okTick] }
      { chain := List.replicate chainCapacity AxisState.undefined,
        requested := AxisState.undefined, error := AxisError.motorFailed,
        stepDir := false }).1.error ≠ AxisError.noError ∧
    (run_sensorless_control_loop cfgNoStepDir ControlMode.velocityControl
      [okTick] ctxMotorFailed).2.1 = false ∧
    (run_closed_loop_control_loop cfgNoStepDir [okTick]
      ctxMotorFailed).2.1 = false :=
  ⟨C5_error_latched_forever.1 cfgNoStepDir ControlMode.velocityControl 1 _ _
    (by decide),
   C5_error_latched_forever.2.2.2.1 cfgNoStepDir ControlMode.velocityControl
    [okTick] ctxMotorFailed (by decide),
   C5_error_latched_forever.2.2.2.2 cfgNoStepDir [okTick] ctxMotorFailed
    (by decide)⟩

section StateMachineClaims

/-- If the head slot is `Idle` and no request is pending or arriving, the
iteration dispatches `Idle` (`Idle` always passes validation). -/
lemma smIter_dispatches_idle (cfg : AxisConfig) (mode : ControlMode) (mp : ℚ)
    (env : IterEnv) (m : AxisMachine)
    (hreq : m.requested = AxisState.undefined)
    (htop : env.reqAtTop = AxisState.undefined)
    (hhead : m.chain.getD 0 AxisState.undefined = AxisState.idle) :
    (smIter cfg mode mp env m).2.1 = AxisState.idle := by
  have hhead2 : m.chain[0]?.getD AxisState.undefined = AxisState.idle := by
    simpa using hhead
  simp [smIter, htop, hreq, hhead2, validateHead, AxisState.toNat]

/-- Validation turns a `ClosedLoopControl` head into `Undefined` whenever the
encoder reports uncalibrated, whatever the motor reports. -/
lemma validateHead_closed_loop_no_encoder (mc : Bool) :
    validateHead mc false AxisState.closedLoopControl =
      AxisState.undefined := by
  cases mc <;> simp [validateHead, AxisState.toNat]

end StateMachineClaims

/-- C1 (amended): when the dispatched head state returns failure, only the
head slot of the task chain is overwritten with `Idle`; the remainder of the
chain is retained, not discarded, and the next top-level iteration (absent a
new request) dispatches `Idle`.  (As the counterexample shows, a retained
state queued after the failed one can still be dispatched later, so the
original claim's discard property fails.) -/
theorem C1_failure_sets_head_idle_remainder_retained (cfg : AxisConfig)
    (mode : ControlMode) (mp : ℚ) (env env2 : IterEnv) (m : AxisMachine)
    (hlen : m.chain.length = chainCapacity)
    (hreq : m.requested = AxisState.undefined)
    (htop : env.reqAtTop = AxisState.undefined)
    (hfail : (smIter cfg mode mp env m).2.2.1 = false) :
    (smIter cfg mode mp env m).1.chain.getD 0 AxisState.undefined =
      AxisState.idle ∧
    (smIter cfg mode mp env m).1.chain.tail = m.chain.tail ∧
    ((smIter cfg mode mp env m).1.requested = AxisState.undefined →
      env2.reqAtTop = AxisState.undefined →
      (smIter cfg mode mp env2 (smIter cfg mode mp env m).1).2.1 =
        AxisState.idle) := by
  have hch : (smIter cfg mode mp env m).1.chain =
      applyOutcome (m.chain.set 0 (validateHead env.motorCalibrated
        env.encoderCalibrated (m.chain.getD 0 AxisState.undefined)))
        ((smIter cfg mode mp env m).2.2.1) := by
    simp [smIter, htop, hreq]
  rw [hfail] at hch
  rcases hc : m.chain with _ | ⟨a, l⟩
  · rw [hc] at hlen
    simp [chainCapacity] at hlen
  · rw [hc] at hch
    simp only [applyOutcome, Bool.false_eq_true, if_false,
      List.set_cons_zero] at hch
    refine ⟨?_, ?_, ?_⟩
    · rw [hch]
      rfl
    · rw [hch]
      rfl
    · intro hreq2 htop2
      apply smIter_dispatches_idle cfg mode mp env2 _ hreq2 htop2
      rw [hch]
      rfl

/-- Configuration requesting the full startup sequence: motor calibration,
encoder calibration, closed-loop control. -/
def cfgStartupAll : AxisConfig :=
  { startup_motor_calibration := true, startup_encoder_calibration := true,
    startup_closed_loop_control := true, startup_sensorless_control := false,
    enable_step_dir := false, counts_per_step := 0, ramp_up_time := 1,
    ramp_up_distance := 0, spin_up_current := 0, spin_up_acceleration := 0,
    spin_up_target_vel := 0 }

/-- A tick on which the PSU brownout check fails (everything else fine). -/
def brownoutTick : TickEnv :=
  { reqArrival := AxisState.undefined, measOk := true, motorChecksOk := true,
    psuOk := false, encoderOk := true, estimatorOk := true,
    controllerOk := true, motorOk := true }

/-- Iteration 1 environment: the startup request is pending; the motor's
(re)calibration routine fails. -/
def envFailMotorCalib : IterEnv :=
  { reqAtTop := AxisState.startupSequence, motorCalibrated := false,
    encoderCalibrated := false, motorCalibOk := false, encoderCalibOk := true,
    armOk := true, ticks1 := [], ticks2 := [], ticks3 := [] }

/-- Iteration 2 environment: the idle loop stops on a transient PSU brownout
detected by `do_checks`; re-arming the motor then succeeds. -/
def envIdleBrownout : IterEnv :=
  { reqAtTop := AxisState.undefined, motorCalibrated := true,
    encoderCalibrated := false, motorCalibOk := true, encoderCalibOk := true,
    armOk := true, ticks1 := [], ticks2 := [], ticks3 := [brownoutTick] }

/-- Iteration 3 environment: no new request; the motor still reports
calibrated (from an earlier calibration - the failed routine of iteration 1
does not clear the flag, which the motor owns). -/
def envQuietCalibrated : IterEnv :=
  { reqAtTop := AxisState.undefined, motorCalibrated := true,
    encoderCalibrated := false, motorCalibOk := true, encoderCalibOk := true,
    armOk := true, ticks1 := [], ticks2 := [], ticks3 := [] }

/-- C1 counterexample: dispatching the startup chain
`[MotorCalibration, EncoderCalibration, ClosedLoopControl, Idle, sentinel]`
with a failing motor calibration leaves `EncoderCalibration` in slot 1 (the
remainder is NOT discarded), and after the fail-safe `Idle` iteration ends on
a transient brownout with a successful re-arm, the very next iteration
dispatches `EncoderCalibration` - a state that was queued after the failed
one - refuting the claim. -/
theorem C1_counterexample_queued_state_dispatched :
    (smRun cfgStartupAll ControlMode.velocityControl 1
      [envFailMotorCalib, envIdleBrownout, envQuietCalibrated]
      initMachine).2 =
      [(AxisState.motorCalibration, false), (AxisState.idle, true),
       (AxisState.encoderCalibration, true)] ∧
    (smIter cfgStartupAll ControlMode.velocityControl 1 envFailMotorCalib
      initMachine).1.chain.getD 1 AxisState.undefined =
      AxisState.encoderCalibration := by
  refine ⟨by decide, by decide⟩

/-- An environment with no request, everything calibrated, all routines
succeeding, and no loop ticks. -/
def envQuiet : IterEnv :=
  { reqAtTop := AxisState.undefined, motorCalibrated := true,
    encoderCalibrated := true, motorCalibOk := true, encoderCalibOk := true,
    armOk := true, ticks1 := [], ticks2 := [], ticks3 := [] }

/-- C1 witness: the initial machine dispatches the `Undefined` head, fails,
and the amended theorem applies: head becomes `Idle` with the tail
retained. -/
theorem C1_failure_sets_head_idle_witness :
    (smIter cfgNoStepDir ControlMode.velocityControl 1 envQuiet
      initMachine).1.chain.getD 0 AxisState.undefined = AxisState.idle ∧
    (smIter cfgNoStepDir ControlMode.velocityControl 1 envQuiet
      initMachine).1.chain.tail = initMachine.chain.tail := by
  have h := C1_failure_sets_head_idle_remainder_retained cfgNoStepDir
    ControlMode.velocityControl 1 envQuiet envQuiet initMachine (by decide)
    (by decide) (by decide) (by decide)
  exact ⟨h.1, h.2.1⟩

/-- C4: with `ClosedLoopControl` at the head, the encoder uncalibrated, and
no request pending or arriving, the iteration replaces the head with
`Undefined` before dispatch, the dispatch sets `InvalidState` and fails, no
subsystem is called (in particular the closed-loop body is never invoked),
and the next iteration (absent a new request) dispatches `Idle`. -/
theorem C4_uncalibrated_encoder_blocks_closed_loop (cfg : AxisConfig)
    (mode : ControlMode) (mp : ℚ) (env env2 : IterEnv) (m : AxisMachine)
    (hlen : m.chain.length = chainCapacity)
    (hreq : m.requested = AxisState.undefined)
    (htop : env.reqAtTop = AxisState.undefined)
    (hhead : m.chain.getD 0 AxisState.undefined = AxisState.closedLoopControl)
    (henc : env.encoderCalibrated = false) :
    (smIter cfg mode mp env m).2.1 = AxisState.undefined ∧
    (smIter cfg mode mp env m).1.error = AxisError.invalidState ∧
    (smIter cfg mode mp env m).2.2.1 = false ∧
    (smIter cfg mode mp env m).2.2.2 = [] ∧
    (env2.reqAtTop = AxisState.undefined →
      (smIter cfg mode mp env2 (smIter cfg mode mp env m).1).2.1 =
        AxisState.idle) := by
  have hval : validateHead env.motorCalibrated env.encoderCalibrated
      (m.chain.getD 0 AxisState.undefined) = AxisState.undefined := by
    rw [hhead, henc]
    exact validateHead_closed_loop_no_encoder env.motorCalibrated
  have hval2 : validateHead env.motorCalibrated env.encoderCalibrated
      (m.chain[0]?.getD AxisState.undefined) = AxisState.undefined := by
    simpa using hval
  have hreq' : (smIter cfg mode mp env m).1.requested =
      AxisState.undefined := by
    simp [smIter, htop, hreq, hval2, dispatch]
  have hfail : (smIter cfg mode mp env m).2.2.1 = false := by
    simp [smIter, htop, hreq, hval2, dispatch]
  have hch : (smIter cfg mode mp env m).1.chain =
      applyOutcome (m.chain.set 0 (validateHead env.motorCalibrated
        env.encoderCalibrated (m.chain.getD 0 AxisState.undefined)))
        ((smIter cfg mode mp env m).2.2.1) := by
    simp [smIter, htop, hreq]
  rw [hfail] at hch
  refine ⟨?_, ?_, hfail, ?_, ?_⟩
  · simp [smIter, htop, hreq, hval2]
  · simp [smIter, htop, hreq, hval2, dispatch]
  · simp [smIter, htop, hreq, hval2, dispatch]
  · intro htop2
    apply smIter_dispatches_idle cfg mode mp env2 _ hreq' htop2
    rcases hc : m.chain with _ | ⟨a, l⟩
    · rw [hc] at hlen
      simp [chainCapacity] at hlen
    · rw [hc] at hch
      simp only [applyOutcome, Bool.false_eq_true, if_false,
        List.set_cons_zero] at hch
      rw [hch]
      rfl

/-- A machine whose head is `ClosedLoopControl` with an otherwise-empty
chain of the fixed capacity, no pending request and no error. -/
def machineHeadClosedLoop : AxisMachine :=
  { chain := AxisState.closedLoopControl ::
      List.replicate (chainCapacity - 1) AxisState.undefined,
    requested := AxisState.undefined, error := AxisError.noError,
    stepDir := false }

/-- An environment reporting the encoder uncalibrated (motor calibrated),
with no request and no loop ticks. -/
def envEncoderUncalibrated : IterEnv :=
  { reqAtTop := AxisState.undefined, motorCalibrated := true,
    encoderCalibrated := false, motorCalibOk := true, encoderCalibOk := true,
    armOk := true, ticks1 := [], ticks2 := [], ticks3 := [] }

/-- C4 witness: the concrete `ClosedLoopControl`-headed machine with an
uncalibrated encoder takes the `InvalidState` path and falls back to
`Idle`. -/
theorem C4_uncalibrated_encoder_blocks_closed_loop_witness :
    (smIter cfgNoStepDir ControlMode.velocityControl 1 envEncoderUncalibrated
      machineHeadClosedLoop).2.1 = AxisState.undefined ∧
    (smIter cfgNoStepDir ControlMode.velocityControl 1 envEncoderUncalibrated
      machineHeadClosedLoop).1.error = AxisError.invalidState ∧
    (smIter cfgNoStepDir ControlMode.velocityControl 1 envQuiet
      (smIter cfgNoStepDir ControlMode.velocityControl 1 envEncoderUncalibrated
        machineHeadClosedLoop).1).2.1 = AxisState.idle := by
  have h := C4_uncalibrated_encoder_blocks_closed_loop cfgNoStepDir
    ControlMode.velocityControl 1 envEncoderUncalibrated envQuiet
    machineHeadClosedLoop (by decide) (by decide) (by decide) (by decide)
    (by decide)
  exact ⟨h.1, h.2.1, h.2.2.2.2 (by decide)⟩
